import Mathlib

/-!
Users v2 service (`pkg/services/users/v2.go`).

A shallow embedding of the `users` client binding: the six operations of
`V2Service` (Query, GetOne, Create, Update, Destroy, Logout) written as
state-passing functions over an injected `services.Repository`.

Modelling conventions.

* Go `error` values are `GoError`; a nil error is `Option.none`.
* A Go method returning `([]byte, error)` returns `Bytes × Option GoError`.
* `int32` identifiers are `Int`; `%d` is the signed decimal rendering `fmtD`.
* `*User` arguments are never nil; the pointee is passed in and the final
  pointee is returned (in-place mutation becomes an explicit result).  A
  `*User` placed in a request is the caller's pointer: the repository method
  that receives it may store a new `User` through it, and the operation then
  continues with the `User` as the method left it.
* `[]User` results are `Option (List User)`, with `none` the nil slice.
* The repository is an interface value: its four method bodies are arbitrary
  state transformers.  Every interface call is appended to the `log` of the
  `World`, so that the calls an operation makes can be counted and inspected.
  The request logged for a call holds the payload as it was when the call
  was made.  Stores through a `*UserQuery` payload are not tracked: no
  operation reads the criteria again after the call.
* `User`, `UserQuery` are declared outside this file of the package: the fields
  of `User` other than `ID` are a type parameter `F`, `UserQuery` is a type
  parameter `Q`.  `encoding/json` is taken as a parameter (`JsonDecoder`).
-/

namespace Users

/-- Raw response bytes (`[]byte`). -/
abbrev Bytes := List UInt8

/-- A Go `error` value, identified by its message. -/
structure GoError where
  msg : String
deriving DecidableEq, Repr

/-- Go `errors.New`. -/
def errors.New (text : String) : GoError := ⟨text⟩

/-- Signed decimal rendering of an integer, the `%d` verb of `fmt.Sprintf`. -/
def fmtD : Int → String
  | Int.ofNat m => Nat.repr m
  | Int.negSucc m => "-" ++ Nat.repr (m + 1)

/-- The `User` record: an optional numeric identifier (`ID *int32`) and the
remaining remote-defined profile fields. -/
structure User (F : Type) where
  ID : Option Int
  fields : F
deriving DecidableEq, Repr

/-- The zero value of `User` (`var user User`). -/
def User.zero {F : Type} [Inhabited F] : User F := { ID := none, fields := default }

/-- The value stored in the `Payload interface{}` field of a request:
nothing (nil interface), a `*UserQuery` (possibly a nil pointer) or a `*User`. -/
inductive PayloadValue (Q F : Type) where
  | absent : PayloadValue Q F
  | query (q : Option Q) : PayloadValue Q F
  | user (u : User F) : PayloadValue Q F
deriving DecidableEq, Repr

namespace olhttp

/-- The request descriptor `olhttp.OLHTTPRequest`: target URL, header
mapping, authentication method tag, optional payload. -/
structure OLHTTPRequest (Q F : Type) where
  URL : String
  Headers : List (String × String)
  AuthMethod : String
  Payload : PayloadValue Q F
deriving DecidableEq, Repr

end olhttp

open olhttp

/-- The four methods of the `services.Repository` interface. -/
inductive Method where
  | Read | Create | Update | Destroy
deriving DecidableEq, Repr

/-- One recorded call on the repository: which method, with which request. -/
structure Call (Q F : Type) where
  method : Method
  req : OLHTTPRequest Q F
deriving DecidableEq, Repr

/-- The state the operations run in: the repository's own state and the
log of the calls made on the repository so far. -/
structure World (σ Q F : Type) where
  state : σ
  log : List (Call Q F)

namespace services

/-- An implementation of the `services.Repository` interface: four method
bodies, each taking a request and returning `([]byte, error)`, the
repository's next state, and the `User` it stored through a `*User` payload
during the call (`none` when it stored nothing). -/
structure Repository (σ Q F : Type) where
  read : OLHTTPRequest Q F → σ → (Bytes × Option GoError) × σ × Option (User F)
  create : OLHTTPRequest Q F → σ → (Bytes × Option GoError) × σ × Option (User F)
  update : OLHTTPRequest Q F → σ → (Bytes × Option GoError) × σ × Option (User F)
  destroy : OLHTTPRequest Q F → σ → (Bytes × Option GoError) × σ × Option (User F)

variable {σ Q F : Type}

/-- Interface call `repo.Read(req)`: the reply, the `User` stored through
the payload pointer, and the world after the call. -/
def Repository.Read (repo : Repository σ Q F) (req : OLHTTPRequest Q F) (w : World σ Q F) :
    ((Bytes × Option GoError) × Option (User F)) × World σ Q F :=
  (((repo.read req w.state).1, (repo.read req w.state).2.2),
    { state := (repo.read req w.state).2.1, log := w.log ++ [⟨Method.Read, req⟩] })

/-- Interface call `repo.Create(req)`: the reply, the `User` stored through
the payload pointer, and the world after the call. -/
def Repository.Create (repo : Repository σ Q F) (req : OLHTTPRequest Q F) (w : World σ Q F) :
    ((Bytes × Option GoError) × Option (User F)) × World σ Q F :=
  (((repo.create req w.state).1, (repo.create req w.state).2.2),
    { state := (repo.create req w.state).2.1, log := w.log ++ [⟨Method.Create, req⟩] })

/-- Interface call `repo.Update(req)`: the reply, the `User` stored through
the payload pointer, and the world after the call. -/
def Repository.Update (repo : Repository σ Q F) (req : OLHTTPRequest Q F) (w : World σ Q F) :
    ((Bytes × Option GoError) × Option (User F)) × World σ Q F :=
  (((repo.update req w.state).1, (repo.update req w.state).2.2),
    { state := (repo.update req w.state).2.1, log := w.log ++ [⟨Method.Update, req⟩] })

/-- Interface call `repo.Destroy(req)`: the reply, the `User` stored through
the payload pointer, and the world after the call. -/
def Repository.Destroy (repo : Repository σ Q F) (req : OLHTTPRequest Q F) (w : World σ Q F) :
    ((Bytes × Option GoError) × Option (User F)) × World σ Q F :=
  (((repo.destroy req w.state).1, (repo.destroy req w.state).2.2),
    { state := (repo.destroy req w.state).2.1, log := w.log ++ [⟨Method.Destroy, req⟩] })

end services

/-- What a `*User` holds after a repository call: the `User` the method
stored through the pointer, or the one it held before when nothing was
stored. -/
def pointee {F : Type} (stored : Option (User F)) (before : User F) : User F :=
  match stored with
  | some u => u
  | none => before

/-- The two uses of `json.Unmarshal` in the service: decoding into a `*User`
and decoding into a `*[]User`.  Each returns what the destination holds
afterwards together with the decoder's error. -/
structure JsonDecoder (F : Type) where
  UnmarshalUser : Bytes → User F → User F × Option GoError
  UnmarshalUsers : Bytes → Option (List (User F)) → Option (List (User F)) × Option GoError

/-- Constant `errUsersV2Context`. -/
def errUsersV2Context : String := "users v2 service"

/-- The service record `V2Service`. -/
structure V2Service (σ Q F : Type) where
  Endpoint : String
  ErrorContext : String
  Repository : services.Repository σ Q F
  Host : String

variable {σ Q F : Type}

/-- Constructor `New`. -/
def New (repo : services.Repository σ Q F) (host : String) : V2Service σ Q F :=
  { Endpoint := host ++ "/api/2/users"
    Repository := repo
    ErrorContext := errUsersV2Context
    Host := host }

/-- Method `Query`. -/
def V2Service.Query (json : JsonDecoder F) (svc : V2Service σ Q F) (query : Option Q)
    (w : World σ Q F) : (Option (List (User F)) × Option GoError) × World σ Q F :=
  match svc.Repository.Read
      { URL := svc.Endpoint
        Headers := [("Content-Type", "application/json")]
        AuthMethod := "bearer"
        Payload := PayloadValue.query query } w with
  | (((resp, err), _), w1) =>
    match err with
    | some e => ((none, some e), w1)
    | none => (((json.UnmarshalUsers resp none).1, none), w1)

/-- Method `GetOne`. -/
def V2Service.GetOne [Inhabited F] (json : JsonDecoder F) (svc : V2Service σ Q F) (id : Int)
    (w : World σ Q F) : (Option (User F) × Option GoError) × World σ Q F :=
  match svc.Repository.Read
      { URL := svc.Endpoint ++ "/" ++ fmtD id
        Headers := [("Content-Type", "application/json")]
        AuthMethod := "bearer"
        Payload := PayloadValue.absent } w with
  | (((resp, err), _), w1) =>
    match err with
    | some e => ((none, some e), w1)
    | none => ((some (json.UnmarshalUser resp User.zero).1, none), w1)

/-- Method `Create`.  The first component of the result is the caller's
`User` after the call; `pointee stored user` is that `User` when the
repository call returns. -/
def V2Service.Create (json : JsonDecoder F) (svc : V2Service σ Q F) (user : User F)
    (w : World σ Q F) : (User F × Option GoError) × World σ Q F :=
  match svc.Repository.Create
      { URL := svc.Endpoint
        Headers := [("Content-Type", "application/json")]
        AuthMethod := "bearer"
        Payload := PayloadValue.user user } w with
  | (((resp, err), stored), w1) =>
    match err with
    | some e => ((pointee stored user, some e), w1)
    | none => (((json.UnmarshalUser resp (pointee stored user)).1, none), w1)

/-- Method `Update`.  The first component of the result is the caller's
`User` after the call; `pointee stored user` is that `User` when the
repository call returns. -/
def V2Service.Update (json : JsonDecoder F) (svc : V2Service σ Q F) (user : User F)
    (w : World σ Q F) : (User F × Option GoError) × World σ Q F :=
  match user.ID with
  | none => ((user, some (errors.New "No ID Given")), w)
  | some id =>
    match svc.Repository.Update
        { URL := svc.Endpoint ++ "/" ++ fmtD id
          Headers := [("Content-Type", "application/json")]
          AuthMethod := "bearer"
          Payload := PayloadValue.user user } w with
    | (((resp, err), stored), w1) =>
      match err with
      | some e => ((pointee stored user, some e), w1)
      | none => (((json.UnmarshalUser resp (pointee stored user)).1, none), w1)

/-- Method `Destroy`. -/
def V2Service.Destroy (svc : V2Service σ Q F) (id : Int) (w : World σ Q F) :
    Option GoError × World σ Q F :=
  match svc.Repository.Destroy
      { URL := svc.Endpoint ++ "/" ++ fmtD id
        Headers := [("Content-Type", "application/json")]
        AuthMethod := "bearer"
        Payload := PayloadValue.absent } w with
  | (((_, err), _), w1) =>
    match err with
    | some e => (some e, w1)
    | none => (none, w1)

/-- Method `Logout`. -/
def V2Service.Logout (svc : V2Service σ Q F) (id : Int) (w : World σ Q F) :
    Option GoError × World σ Q F :=
  match svc.Repository.Update
      { URL := svc.Host ++ "/api/1/users/" ++ fmtD id ++ "/logout"
        Headers := [("Content-Type", "application/json")]
        AuthMethod := "bearer"
        Payload := PayloadValue.absent } w with
  | (((_, err), _), w1) =>
    match err with
    | some e => (some e, w1)
    | none => (none, w1)

/-! Test doubles: a canned repository and a small decoder, used to run the
operations on concrete inputs. -/

/-- The bytes of an ASCII string. -/
def bytesOf (s : String) : Bytes := s.data.map (fun c => UInt8.ofNat c.toNat)

/-- A repository double with one canned response per method; its state counts
the calls it has served, and it stores nothing through the payload. -/
def stubRepo (Q F : Type) (r c u d : Bytes × Option GoError) : services.Repository Nat Q F :=
  { read := fun _ n => (r, n + 1, none)
    create := fun _ n => (c, n + 1, none)
    update := fun _ n => (u, n + 1, none)
    destroy := fun _ n => (d, n + 1, none) }

/-- A repository double whose create and update store `ID = 99` through
the `*User` payload and then fail with "503". -/
def scribbleRepo : services.Repository Nat Unit Unit :=
  { read := fun _ n => (([], some (errors.New "503")), n + 1, none)
    create := fun _ n => (([], some (errors.New "503")), n + 1, some { ID := some 99, fields := () })
    update := fun _ n => (([], some (errors.New "503")), n + 1, some { ID := some 99, fields := () })
    destroy := fun _ n => (([], some (errors.New "503")), n + 1, none) }

/-- Value of a run of ASCII digits, if the run is a JSON integer literal
(non-empty, digits only, no leading zero) that fits in `int32`. -/
def digitsValue (ds : Bytes) : Option Int :=
  if ds ≠ [] ∧ ds.all (fun d => 48 ≤ d.toNat ∧ d.toNat ≤ 57) ∧ (ds.head? ≠ some 48 ∨ ds.length = 1) then
    let v := ds.foldl (fun a d => 10 * a + (d.toNat - 48)) 0
    if v < 2 ^ 31 then some (Int.ofNat v) else none
  else none

/-- Reads a document of the exact form `{"id":N}`. -/
def parseIdDoc (b : Bytes) : Option Int :=
  if (bytesOf "\x7b\"id\":").isPrefixOf b ∧ b.getLast? = some 125 then
    digitsValue ((b.drop 6).dropLast)
  else none

/-- A decoder double that understands only documents `{"id":N}` (setting
`ID`) and the empty array `[]`; on anything else it reports an error and leaves
the destination as it was. -/
def stubJson (F : Type) : JsonDecoder F :=
  { UnmarshalUser := fun b u =>
      match parseIdDoc b with
      | some n => ({ u with ID := some n }, none)
      | none => (u, some (errors.New "json: cannot decode"))
    UnmarshalUsers := fun b us =>
      if b = bytesOf "[]" then (some [], none)
      else (us, some (errors.New "json: cannot decode")) }

/-- The fixed header mapping every request carries. -/
def jsonHeaders : List (String × String) := [("Content-Type", "application/json")]

/-- A request descriptor with the fixed headers and the bearer tag. -/
def stdReq (url : String) (payload : PayloadValue Q F) : OLHTTPRequest Q F :=
  { URL := url, Headers := jsonHeaders, AuthMethod := "bearer", Payload := payload }

/-- The calls made between world `w` and a later world `w1`. -/
def newCalls (w w1 : World σ Q F) : List (Call Q F) := w1.log.drop w.log.length

/-- The world after one interface call: the repository state moves on and
the call is logged. -/
def afterCall (w : World σ Q F) (m : Method) (req : OLHTTPRequest Q F) (s : σ) : World σ Q F :=
  { state := s, log := w.log ++ [⟨m, req⟩] }

/-! Sample inputs. -/

/-- A repository double whose four methods all succeed with `{"id":7}`. -/
def okRepo : services.Repository Nat Unit Unit :=
  stubRepo Unit Unit (bytesOf "\x7b\"id\":7\x7d", none) (bytesOf "\x7b\"id\":7\x7d", none)
    (bytesOf "\x7b\"id\":7\x7d", none) (bytesOf "\x7b\"id\":7\x7d", none)

/-- A repository double whose four methods all fail with "503" and a
non-empty body. -/
def failRepo : services.Repository Nat Unit Unit :=
  stubRepo Unit Unit (bytesOf "busy", some (errors.New "503")) (bytesOf "busy", some (errors.New "503"))
    (bytesOf "busy", some (errors.New "503")) (bytesOf "busy", some (errors.New "503"))

/-- A repository double whose four methods all succeed with the body `oops`,
which is not JSON. -/
def junkRepo : services.Repository Nat Unit Unit :=
  stubRepo Unit Unit (bytesOf "oops", none) (bytesOf "oops", none)
    (bytesOf "oops", none) (bytesOf "oops", none)

/-- A repository double that answers a create with `{"id":7}` and every read
with `{"id":8}`. -/
def driftRepo : services.Repository Nat Unit Unit :=
  stubRepo Unit Unit (bytesOf "\x7b\"id\":8\x7d", none) (bytesOf "\x7b\"id\":7\x7d", none)
    (bytesOf "\x7b\"id\":7\x7d", none) ([], none)

/-- A fresh world: no call served, empty log. -/
def w0 : World Nat Unit Unit := { state := 0, log := [] }

/-! Helper lemmas. -/

theorem newCalls_afterCall (w : World σ Q F) (m : Method) (req : OLHTTPRequest Q F) (s : σ) :
    newCalls w (afterCall w m req s) = [⟨m, req⟩] := by
  simp [newCalls, afterCall]

theorem Query_world (json : JsonDecoder F) (svc : V2Service σ Q F) (q : Option Q)
    (w : World σ Q F) :
    (svc.Query json q w).2 =
      afterCall w Method.Read (stdReq svc.Endpoint (PayloadValue.query q))
        (svc.Repository.read (stdReq svc.Endpoint (PayloadValue.query q)) w.state).2.1 := by
  simp only [V2Service.Query, services.Repository.Read, stdReq, jsonHeaders, afterCall]
  split <;> rfl

theorem Query_result (json : JsonDecoder F) (svc : V2Service σ Q F) (q : Option Q)
    (w : World σ Q F) :
    (svc.Query json q w).1 =
      match (svc.Repository.read (stdReq svc.Endpoint (PayloadValue.query q)) w.state).1 with
      | (_, some e) => (none, some e)
      | (resp, none) => ((json.UnmarshalUsers resp none).1, none) := by
  simp only [V2Service.Query, services.Repository.Read, stdReq, jsonHeaders]
  split <;> split <;> simp_all

theorem GetOne_world [Inhabited F] (json : JsonDecoder F) (svc : V2Service σ Q F) (id : Int)
    (w : World σ Q F) :
    (svc.GetOne json id w).2 =
      afterCall w Method.Read (stdReq (svc.Endpoint ++ "/" ++ fmtD id) PayloadValue.absent)
        (svc.Repository.read (stdReq (svc.Endpoint ++ "/" ++ fmtD id) PayloadValue.absent)
          w.state).2.1 := by
  simp only [V2Service.GetOne, services.Repository.Read, stdReq, jsonHeaders, afterCall]
  split <;> rfl

theorem GetOne_result [Inhabited F] (json : JsonDecoder F) (svc : V2Service σ Q F) (id : Int)
    (w : World σ Q F) :
    (svc.GetOne json id w).1 =
      match (svc.Repository.read (stdReq (svc.Endpoint ++ "/" ++ fmtD id) PayloadValue.absent)
          w.state).1 with
      | (_, some e) => (none, some e)
      | (resp, none) => (some (json.UnmarshalUser resp User.zero).1, none) := by
  simp only [V2Service.GetOne, services.Repository.Read, stdReq, jsonHeaders]
  split <;> split <;> simp_all

theorem Create_world (json : JsonDecoder F) (svc : V2Service σ Q F) (user : User F)
    (w : World σ Q F) :
    (svc.Create json user w).2 =
      afterCall w Method.Create (stdReq svc.Endpoint (PayloadValue.user user))
        (svc.Repository.create (stdReq svc.Endpoint (PayloadValue.user user)) w.state).2.1 := by
  simp only [V2Service.Create, services.Repository.Create, stdReq, jsonHeaders, afterCall]
  split <;> rfl

theorem Create_result (json : JsonDecoder F) (svc : V2Service σ Q F) (user : User F)
    (w : World σ Q F) :
    (svc.Create json user w).1 =
      match (svc.Repository.create (stdReq svc.Endpoint (PayloadValue.user user)) w.state).1 with
      | (_, some e) =>
        (pointee (svc.Repository.create (stdReq svc.Endpoint (PayloadValue.user user))
          w.state).2.2 user, some e)
      | (resp, none) =>
        ((json.UnmarshalUser resp
          (pointee (svc.Repository.create (stdReq svc.Endpoint (PayloadValue.user user))
            w.state).2.2 user)).1, none) := by
  simp only [V2Service.Create, services.Repository.Create, stdReq, jsonHeaders]
  split <;> split <;> simp_all

theorem Update_absent (json : JsonDecoder F) (svc : V2Service σ Q F) (user : User F)
    (w : World σ Q F) (h : user.ID = none) :
    svc.Update json user w = ((user, some (errors.New "No ID Given")), w) := by
  simp [V2Service.Update, h]

theorem Update_world (json : JsonDecoder F) (svc : V2Service σ Q F) (user : User F) (n : Int)
    (w : World σ Q F) (h : user.ID = some n) :
    (svc.Update json user w).2 =
      afterCall w Method.Update (stdReq (svc.Endpoint ++ "/" ++ fmtD n) (PayloadValue.user user))
        (svc.Repository.update
          (stdReq (svc.Endpoint ++ "/" ++ fmtD n) (PayloadValue.user user)) w.state).2.1 := by
  simp only [V2Service.Update, h, services.Repository.Update, stdReq, jsonHeaders, afterCall]
  split <;> rfl

theorem Update_result (json : JsonDecoder F) (svc : V2Service σ Q F) (user : User F) (n : Int)
    (w : World σ Q F) (h : user.ID = some n) :
    (svc.Update json user w).1 =
      match (svc.Repository.update
          (stdReq (svc.Endpoint ++ "/" ++ fmtD n) (PayloadValue.user user)) w.state).1 with
      | (_, some e) =>
        (pointee (svc.Repository.update
          (stdReq (svc.Endpoint ++ "/" ++ fmtD n) (PayloadValue.user user)) w.state).2.2 user,
          some e)
      | (resp, none) =>
        ((json.UnmarshalUser resp
          (pointee (svc.Repository.update
            (stdReq (svc.Endpoint ++ "/" ++ fmtD n) (PayloadValue.user user)) w.state).2.2
            user)).1, none) := by
  simp only [V2Service.Update, h, services.Repository.Update, stdReq, jsonHeaders]
  split <;> split <;> simp_all

theorem Destroy_world (svc : V2Service σ Q F) (id : Int) (w : World σ Q F) :
    (svc.Destroy id w).2 =
      afterCall w Method.Destroy (stdReq (svc.Endpoint ++ "/" ++ fmtD id) PayloadValue.absent)
        (svc.Repository.destroy (stdReq (svc.Endpoint ++ "/" ++ fmtD id) PayloadValue.absent)
          w.state).2.1 := by
  simp only [V2Service.Destroy, services.Repository.Destroy, stdReq, jsonHeaders, afterCall]
  split <;> rfl

theorem Destroy_result (svc : V2Service σ Q F) (id : Int) (w : World σ Q F) :
    (svc.Destroy id w).1 =
      (svc.Repository.destroy (stdReq (svc.Endpoint ++ "/" ++ fmtD id) PayloadValue.absent)
        w.state).1.2 := by
  simp only [V2Service.Destroy, services.Repository.Destroy, stdReq, jsonHeaders]
  split <;> simp_all

theorem Logout_world (svc : V2Service σ Q F) (id : Int) (w : World σ Q F) :
    (svc.Logout id w).2 =
      afterCall w Method.Update
        (stdReq (svc.Host ++ "/api/1/users/" ++ fmtD id ++ "/logout") PayloadValue.absent)
        (svc.Repository.update
          (stdReq (svc.Host ++ "/api/1/users/" ++ fmtD id ++ "/logout") PayloadValue.absent)
          w.state).2.1 := by
  simp only [V2Service.Logout, services.Repository.Update, stdReq, jsonHeaders, afterCall]
  split <;> rfl

theorem Logout_result (svc : V2Service σ Q F) (id : Int) (w : World σ Q F) :
    (svc.Logout id w).1 =
      (svc.Repository.update
        (stdReq (svc.Host ++ "/api/1/users/" ++ fmtD id ++ "/logout") PayloadValue.absent)
        w.state).1.2 := by
  simp only [V2Service.Logout, services.Repository.Update, stdReq, jsonHeaders]
  split <;> simp_all

/-! Claims. -/

/-- C1: when the User's ID is absent, Update returns the non-nil error
"No ID Given", makes no call on the Repository (the log and the repository
state are untouched), and leaves the User unchanged. -/
theorem C1_update_absent_id (json : JsonDecoder F) (svc : V2Service σ Q F) (user : User F)
    (w : World σ Q F) (h : user.ID = none) :
    (svc.Update json user w).1.2 = some (errors.New "No ID Given") ∧
    (svc.Update json user w).1.2 ≠ none ∧
    newCalls w (svc.Update json user w).2 = [] ∧
    (svc.Update json user w).2 = w ∧
    (svc.Update json user w).1.1 = user := by
  rw [Update_absent json svc user w h]
  simp [newCalls]

/-- C1 run on a User without ID. -/
theorem C1_update_absent_id_witness :
    (({ ID := none, fields := () } : User Unit).ID = none) ∧
    ((New okRepo "h").Update (stubJson Unit) { ID := none, fields := () } w0).1.2
      = some (errors.New "No ID Given") ∧
    ((New okRepo "h").Update (stubJson Unit) { ID := none, fields := () } w0).1.2 ≠ none ∧
    newCalls w0 ((New okRepo "h").Update (stubJson Unit) { ID := none, fields := () } w0).2 = [] ∧
    ((New okRepo "h").Update (stubJson Unit) { ID := none, fields := () } w0).2 = w0 ∧
    ((New okRepo "h").Update (stubJson Unit) { ID := none, fields := () } w0).1.1
      = { ID := none, fields := () } :=
  ⟨rfl, C1_update_absent_id (stubJson Unit) (New okRepo "h") { ID := none, fields := () } w0 rfl⟩

/-- C3: the calls Destroy makes on the Repository are exactly one Destroy
call to Endpoint ++ "/" ++ id with no payload, and Destroy returns exactly the
error component of that call's result: the error e itself when the call fails
with e, and no error when the call succeeds, whatever the response bytes. -/
theorem C3_destroy (svc : V2Service σ Q F) (id : Int) (w : World σ Q F) :
    newCalls w (svc.Destroy id w).2 =
      [⟨Method.Destroy,
        { URL := svc.Endpoint ++ "/" ++ fmtD id
          Headers := jsonHeaders
          AuthMethod := "bearer"
          Payload := PayloadValue.absent }⟩] ∧
    (svc.Destroy id w).1 =
      (svc.Repository.destroy
        { URL := svc.Endpoint ++ "/" ++ fmtD id
          Headers := jsonHeaders
          AuthMethod := "bearer"
          Payload := PayloadValue.absent } w.state).1.2 ∧
    (∀ (b : Bytes) (e : GoError),
      (svc.Repository.destroy
        { URL := svc.Endpoint ++ "/" ++ fmtD id
          Headers := jsonHeaders
          AuthMethod := "bearer"
          Payload := PayloadValue.absent } w.state).1 = (b, some e) →
      (svc.Destroy id w).1 = some e) ∧
    (∀ (b : Bytes),
      (svc.Repository.destroy
        { URL := svc.Endpoint ++ "/" ++ fmtD id
          Headers := jsonHeaders
          AuthMethod := "bearer"
          Payload := PayloadValue.absent } w.state).1 = (b, none) →
      (svc.Destroy id w).1 = none) := by
  refine ⟨?_, Destroy_result svc id w, ?_, ?_⟩
  · rw [Destroy_world, newCalls_afterCall]
    rfl
  · intro b e hb
    rw [Destroy_result]
    exact congrArg Prod.snd hb
  · intro b hb
    rw [Destroy_result]
    exact congrArg Prod.snd hb

/-- C3 run on a failing and on a succeeding repository. -/
theorem C3_destroy_witness :
    ((New failRepo "h").Destroy 9 w0).1 = some (errors.New "503") ∧
    ((New okRepo "h").Destroy 9 w0).1 = none ∧
    newCalls w0 ((New failRepo "h").Destroy 9 w0).2 =
      [⟨Method.Destroy,
        { URL := "h/api/2/users/9"
          Headers := jsonHeaders
          AuthMethod := "bearer"
          Payload := PayloadValue.absent }⟩] :=
  ⟨(C3_destroy (New failRepo "h") 9 w0).2.2.1 (bytesOf "busy") (errors.New "503") rfl,
   (C3_destroy (New okRepo "h") 9 w0).2.2.2 (bytesOf "\x7b\"id\":7\x7d") rfl,
   (C3_destroy (New failRepo "h") 9 w0).1⟩

/-- C6: whatever the decoder makes of the bytes b (its error is ignored), if
the Read succeeds with b then Query returns no error together with the
sequence the decoder left in a nil slice, and GetOne returns no error together
with a non-nil User: the one the decoder left in a zero-valued User. -/
theorem C6_decode_errors_swallowed [Inhabited F] (json : JsonDecoder F) (svc : V2Service σ Q F)
    (q : Option Q) (id : Int) (b : Bytes) (w : World σ Q F) :
    ((svc.Repository.read (stdReq svc.Endpoint (PayloadValue.query q)) w.state).1 = (b, none) →
      (svc.Query json q w).1 = ((json.UnmarshalUsers b none).1, none)) ∧
    ((svc.Repository.read (stdReq (svc.Endpoint ++ "/" ++ fmtD id) PayloadValue.absent)
        w.state).1 = (b, none) →
      (svc.GetOne json id w).1 = (some (json.UnmarshalUser b User.zero).1, none)) := by
  constructor
  · intro hb
    rw [Query_result, hb]
  · intro hb
    rw [GetOne_result, hb]

/-- C6 run on a repository whose responses are not JSON: the decoder reports
an error, the operations do not. -/
theorem C6_decode_errors_swallowed_witness :
    ((stubJson Unit).UnmarshalUsers (bytesOf "oops") none).2 ≠ none ∧
    ((stubJson Unit).UnmarshalUser (bytesOf "oops") User.zero).2 ≠ none ∧
    ((New junkRepo "h").Query (stubJson Unit) (some ()) w0).1 = (none, none) ∧
    ((New junkRepo "h").GetOne (stubJson Unit) 3 w0).1 = (some User.zero, none) :=
  ⟨by decide, by decide,
   (C6_decode_errors_swallowed (stubJson Unit) (New junkRepo "h") (some ()) 3 (bytesOf "oops") w0).1
     rfl,
   (C6_decode_errors_swallowed (stubJson Unit) (New junkRepo "h") (some ()) 3 (bytesOf "oops") w0).2
     rfl⟩

/-- C8: every request descriptor that Query, GetOne, Create, Update,
Destroy or Logout passes to the Repository has AuthMethod "bearer" and the
header mapping with the single entry "Content-Type" -> "application/json". -/
theorem C8_auth_and_headers [Inhabited F] (json : JsonDecoder F) (svc : V2Service σ Q F)
    (q : Option Q) (id : Int) (user : User F) (w : World σ Q F) :
    (∀ c ∈ newCalls w (svc.Query json q w).2,
      c.req.AuthMethod = "bearer" ∧ c.req.Headers = [("Content-Type", "application/json")]) ∧
    (∀ c ∈ newCalls w (svc.GetOne json id w).2,
      c.req.AuthMethod = "bearer" ∧ c.req.Headers = [("Content-Type", "application/json")]) ∧
    (∀ c ∈ newCalls w (svc.Create json user w).2,
      c.req.AuthMethod = "bearer" ∧ c.req.Headers = [("Content-Type", "application/json")]) ∧
    (∀ c ∈ newCalls w (svc.Update json user w).2,
      c.req.AuthMethod = "bearer" ∧ c.req.Headers = [("Content-Type", "application/json")]) ∧
    (∀ c ∈ newCalls w (svc.Destroy id w).2,
      c.req.AuthMethod = "bearer" ∧ c.req.Headers = [("Content-Type", "application/json")]) ∧
    (∀ c ∈ newCalls w (svc.Logout id w).2,
      c.req.AuthMethod = "bearer" ∧ c.req.Headers = [("Content-Type", "application/json")]) := by
  refine ⟨?_, ?_, ?_, ?_, ?_, ?_⟩
  · rw [Query_world, newCalls_afterCall]
    simp [stdReq, jsonHeaders]
  · rw [GetOne_world, newCalls_afterCall]
    simp [stdReq, jsonHeaders]
  · rw [Create_world, newCalls_afterCall]
    simp [stdReq, jsonHeaders]
  · cases hid : user.ID with
    | none =>
      rw [Update_absent json svc user w hid]
      simp [newCalls]
    | some n =>
      rw [Update_world json svc user n w hid, newCalls_afterCall]
      simp [stdReq, jsonHeaders]
  · rw [Destroy_world, newCalls_afterCall]
    simp [stdReq, jsonHeaders]
  · rw [Logout_world, newCalls_afterCall]
    simp [stdReq, jsonHeaders]

/-- C8 run on a Logout call. -/
theorem C8_auth_and_headers_witness :
    (⟨Method.Update, stdReq "h/api/1/users/4/logout" PayloadValue.absent⟩ : Call Unit Unit)
      ∈ newCalls w0 ((New okRepo "h").Logout 4 w0).2 ∧
    (stdReq "h/api/1/users/4/logout" (PayloadValue.absent : PayloadValue Unit Unit)).AuthMethod
      = "bearer" ∧
    (stdReq "h/api/1/users/4/logout" (PayloadValue.absent : PayloadValue Unit Unit)).Headers
      = [("Content-Type", "application/json")] :=
  ⟨by decide,
   (C8_auth_and_headers (stubJson Unit) (New okRepo "h") none 4 { ID := some 4, fields := () }
      w0).2.2.2.2.2 ⟨Method.Update, stdReq "h/api/1/users/4/logout" PayloadValue.absent⟩
      (by decide)⟩

/-- C9 as stated fails: against a repository that answers the create with
`{"id":7}` and the read with `{"id":8}`, Create succeeds and writes 7 into the
User, yet GetOne 7 returns a User whose ID is 8. -/
theorem C9_counterexample :
    ((New driftRepo "h").Create (stubJson Unit) { ID := none, fields := () } w0).1
      = ({ ID := some 7, fields := () }, none) ∧
    ((New driftRepo "h").GetOne (stubJson Unit) 7
        ((New driftRepo "h").Create (stubJson Unit) { ID := none, fields := () } w0).2).1
      = (some { ID := some 8, fields := () }, none) ∧
    ¬ (((New driftRepo "h").Create (stubJson Unit) { ID := none, fields := () } w0).1.2 = none →
        ((New driftRepo "h").Create (stubJson Unit) { ID := none, fields := () } w0).1.1.ID
          = some 7 →
        ∃ g, ((New driftRepo "h").GetOne (stubJson Unit) 7
            ((New driftRepo "h").Create (stubJson Unit) { ID := none, fields := () } w0).2).1.1
          = some g ∧ g.ID = some 7) := by
  decide

/-- C9 amended: if Create succeeds and writes identifier n into the User,
and the Repository answers the following Read of Endpoint ++ "/" ++ decimal(n)
successfully with bytes that decode, into a zero-valued User, to a User whose
ID is n, then GetOne n returns no error and a User whose ID is n. -/
theorem C9_create_then_getone [Inhabited F] (json : JsonDecoder F) (svc : V2Service σ Q F)
    (u : User F) (n : Int) (b : Bytes) (w : World σ Q F)
    (_hc : (svc.Create json u w).1.2 = none)
    (hn : (svc.Create json u w).1.1.ID = some n)
    (hr : (svc.Repository.read (stdReq (svc.Endpoint ++ "/" ++ fmtD n) PayloadValue.absent)
        (svc.Create json u w).2.state).1 = (b, none))
    (hd : (json.UnmarshalUser b User.zero).1.ID = some n) :
    ∃ g, (svc.GetOne json n (svc.Create json u w).2).1 = (some g, none) ∧ g.ID = some n ∧
      g.ID = (svc.Create json u w).1.1.ID := by
  refine ⟨(json.UnmarshalUser b User.zero).1, ?_, hd, hd.trans hn.symm⟩
  rw [GetOne_result, hr]

/-- C9 amended, run on a repository that answers both the create and the
read with `{"id":7}`. -/
theorem C9_create_then_getone_witness :
    ((New okRepo "h").Create (stubJson Unit) { ID := none, fields := () } w0).1.2 = none ∧
    ((New okRepo "h").Create (stubJson Unit) { ID := none, fields := () } w0).1.1.ID = some 7 ∧
    (∃ g, ((New okRepo "h").GetOne (stubJson Unit) 7
        ((New okRepo "h").Create (stubJson Unit) { ID := none, fields := () } w0).2).1
      = (some g, none) ∧ g.ID = some 7 ∧
      g.ID = ((New okRepo "h").Create (stubJson Unit) { ID := none, fields := () } w0).1.1.ID) :=
  ⟨by decide, by decide,
   C9_create_then_getone (stubJson Unit) (New okRepo "h") { ID := none, fields := () } 7
     (bytesOf "\x7b\"id\":7\x7d") w0 (by decide) (by decide) (by decide) (by decide)⟩

/-- C10 as stated fails: Create and Update hand the Repository the caller's
`*User`.  Against a repository whose create and update store ID 99 through
that pointer and then fail with "503", Create and Update return exactly that
error, yet the User is no longer the one passed in. -/
theorem C10_counterexample :
    (scribbleRepo.create (stdReq (New scribbleRepo "h").Endpoint
        (PayloadValue.user { ID := none, fields := () })) w0.state).1
      = ([], some (errors.New "503")) ∧
    ((New scribbleRepo "h").Create (stubJson Unit) { ID := none, fields := () } w0).1
      = ({ ID := some 99, fields := () }, some (errors.New "503")) ∧
    ((New scribbleRepo "h").Create (stubJson Unit) { ID := none, fields := () } w0).1
      ≠ ({ ID := none, fields := () }, some (errors.New "503")) ∧
    ((New scribbleRepo "h").Update (stubJson Unit) { ID := some 5, fields := () } w0).1
      = ({ ID := some 99, fields := () }, some (errors.New "503")) ∧
    ((New scribbleRepo "h").Update (stubJson Unit) { ID := some 5, fields := () } w0).1
      ≠ ({ ID := some 5, fields := () }, some (errors.New "503")) := by
  decide

/-- C10 amended: if the Repository call fails with error e (whatever bytes
come with it), Create returns exactly e and writes nothing itself: the User is
as the Repository call left it, hence unchanged when the Repository stored
nothing through the payload pointer; so does Update when the ID is present;
Query and GetOne return exactly e together with an absent (nil) result. -/
theorem C10_transport_failure [Inhabited F] (json : JsonDecoder F) (svc : V2Service σ Q F)
    (q : Option Q) (id : Int) (user : User F) (b : Bytes) (e : GoError) (w : World σ Q F) :
    ((svc.Repository.create (stdReq svc.Endpoint (PayloadValue.user user)) w.state).1
        = (b, some e) →
      (svc.Create json user w).1 =
        (pointee (svc.Repository.create (stdReq svc.Endpoint (PayloadValue.user user))
          w.state).2.2 user, some e)) ∧
    ((svc.Repository.create (stdReq svc.Endpoint (PayloadValue.user user)) w.state).1
        = (b, some e) →
      (svc.Repository.create (stdReq svc.Endpoint (PayloadValue.user user)) w.state).2.2
        = none →
      (svc.Create json user w).1 = (user, some e)) ∧
    (∀ n : Int, user.ID = some n →
      (svc.Repository.update (stdReq (svc.Endpoint ++ "/" ++ fmtD n) (PayloadValue.user user))
        w.state).1 = (b, some e) →
      (svc.Update json user w).1 =
        (pointee (svc.Repository.update
          (stdReq (svc.Endpoint ++ "/" ++ fmtD n) (PayloadValue.user user)) w.state).2.2 user,
          some e)) ∧
    (∀ n : Int, user.ID = some n →
      (svc.Repository.update (stdReq (svc.Endpoint ++ "/" ++ fmtD n) (PayloadValue.user user))
        w.state).1 = (b, some e) →
      (svc.Repository.update (stdReq (svc.Endpoint ++ "/" ++ fmtD n) (PayloadValue.user user))
        w.state).2.2 = none →
      (svc.Update json user w).1 = (user, some e)) ∧
    ((svc.Repository.read (stdReq svc.Endpoint (PayloadValue.query q)) w.state).1
        = (b, some e) →
      (svc.Query json q w).1 = (none, some e)) ∧
    ((svc.Repository.read (stdReq (svc.Endpoint ++ "/" ++ fmtD id) PayloadValue.absent)
        w.state).1 = (b, some e) →
      (svc.GetOne json id w).1 = (none, some e)) := by
  refine ⟨?_, ?_, ?_, ?_, ?_, ?_⟩
  · intro hb
    rw [Create_result, hb]
  · intro hb hs
    rw [Create_result, hb, hs]
    rfl
  · intro n hn hb
    rw [Update_result json svc user n w hn, hb]
  · intro n hn hb hs
    rw [Update_result json svc user n w hn, hb, hs]
    rfl
  · intro hb
    rw [Query_result, hb]
  · intro hb
    rw [GetOne_result, hb]

/-- C10 amended, run on a repository whose every call fails with "503" and
stores nothing, and on one that stores ID 99 before failing. -/
theorem C10_transport_failure_witness :
    ((New scribbleRepo "h").Create (stubJson Unit) { ID := none, fields := () } w0).1
      = (pointee (some { ID := some 99, fields := () }) { ID := none, fields := () },
          some (errors.New "503")) ∧
    ((New failRepo "h").Create (stubJson Unit) { ID := none, fields := () } w0).1
      = ({ ID := none, fields := () }, some (errors.New "503")) ∧
    ((New scribbleRepo "h").Update (stubJson Unit) { ID := some 5, fields := () } w0).1
      = (pointee (some { ID := some 99, fields := () }) { ID := some 5, fields := () },
          some (errors.New "503")) ∧
    ((New failRepo "h").Update (stubJson Unit) { ID := some 5, fields := () } w0).1
      = ({ ID := some 5, fields := () }, some (errors.New "503")) ∧
    ((New failRepo "h").Query (stubJson Unit) none w0).1 = (none, some (errors.New "503")) ∧
    ((New failRepo "h").GetOne (stubJson Unit) 5 w0).1 = (none, some (errors.New "503")) :=
  ⟨(C10_transport_failure (stubJson Unit) (New scribbleRepo "h") none 5
      { ID := none, fields := () } [] (errors.New "503") w0).1 rfl,
   (C10_transport_failure (stubJson Unit) (New failRepo "h") none 5 { ID := none, fields := () }
      (bytesOf "busy") (errors.New "503") w0).2.1 rfl rfl,
   (C10_transport_failure (stubJson Unit) (New scribbleRepo "h") none 5
      { ID := some 5, fields := () } [] (errors.New "503") w0).2.2.1 5 rfl rfl,
   (C10_transport_failure (stubJson Unit) (New failRepo "h") none 5 { ID := some 5, fields := () }
      (bytesOf "busy") (errors.New "503") w0).2.2.2.1 5 rfl rfl rfl,
   (C10_transport_failure (stubJson Unit) (New failRepo "h") none 5 { ID := some 5, fields := () }
      (bytesOf "busy") (errors.New "503") w0).2.2.2.2.1 rfl,
   (C10_transport_failure (stubJson Unit) (New failRepo "h") none 5 { ID := some 5, fields := () }
      (bytesOf "busy") (errors.New "503") w0).2.2.2.2.2 rfl⟩

end Users
